import Mathlib

/-!
Verification of the `hive_mind` shared-memory segment manager (`src/lib.rs`).

The Rust code wraps the SysV shared-memory API (`shmget`, `shmat`, `shmdt`,
`shmctl IPC_RMID`) and a pluggable lock behind a typed handle `Cortex<T, L>`.
We give a shallow embedding: the OS state is an explicit segment table
(`Sys`), each libc call and lock operation is a pure function on that state,
and every fallible external behavior (non-collision `shmget` failures,
`shmat`/`shmdt`/`shmctl` failures, lock failures, the `rand()` stream) is
driven by an oracle record `Env`, so theorems quantify over all external
behaviors.  A raw pointer into a mapped segment is represented by the
segment's id; freshly allocated (never written) memory is `Option.none`,
so dereferencing yields an `Option T` snapshot.
-/

namespace HiveMind

/-- Clean/dirty classification of errors.  `src/crash.rs` is not part of the
provided sources; this and `CortexError` are modelled from the spec (§7):
*clean* means no OS-visible side effect was pending, *dirty* means partial
OS state existed when the failure occurred. -/
inductive ErrKind where
  | clean
  | dirty
deriving DecidableEq

/-- Modelled from the spec: the repository's error type `CortexError`
(defined in `src/crash.rs`, which is missing from the sources).  §7 specifies
only the clean/dirty distinction plus a human-readable message, exposed to
`lib.rs` through the constructors `new_clean` and `new_dirty`. -/
structure CortexError where
  kind : ErrKind
  msg : String
deriving DecidableEq

def CortexError.new_clean (m : String) : CortexError := ⟨ErrKind.clean, m⟩

def CortexError.new_dirty (m : String) : CortexError := ⟨ErrKind.dirty, m⟩

/-- Alias for `CortexResult<T>` from `lib.rs` line 37. -/
abbrev CortexResult (A : Type) : Type := Except CortexError A

/-- The `errno` values the code inspects: `EEXIST`, anything else, or the
"no error" placeholder after a successful call. -/
inductive Errno where
  | eexist
  | other
  | noerr
deriving DecidableEq

/-- One OS shared-memory segment: its key, OS-assigned id, current content
(`none` = allocated but never written), and whether `IPC_RMID` has marked it
for removal.  Marked segments lose their key (SysV frees the name at once)
but keep their content reachable by id while still attached. -/
structure SegRec (T : Type) where
  key : Int
  id : Int
  content : Option T
  marked : Bool
deriving DecidableEq

/-- The OS-level state: the segment table, the next fresh id (ids are
nonnegative, so an id never equals the failure value `-1`), the multiset of
ids the current process has attached, and how many times `rand()` was
called. -/
structure Sys (T : Type) where
  segs : List (SegRec T)
  nextId : Nat
  attached : List Int
  randCount : Nat
deriving DecidableEq

/-- Oracle for all external behavior: the `rand()` stream, `size_of::<T>()`,
and, for each fallible external call, whether it fails (beyond the failures
the state itself forces) and which error the lock backend reports.  Lock
operations are keyed by the lock's key, matching the `CortexSync` trait
boundary (`lib.rs` lines 39-48); the backend itself is external to the
sources. -/
structure Env (T : Type) where
  rands : Nat → Int
  sizeOfT : Nat
  createFault : Int → Bool
  attachFault : Int → Bool
  detachFault : Int → Bool
  rmidFault : Int → Bool
  lookupFault : Int → Bool
  lockNewFault : Int → Bool
  lockNewErr : Int → CortexError
  lockAttachFault : Int → Bool
  lockAttachErr : Int → CortexError
  readLockFault : Int → Bool
  readLockErr : Int → CortexError
  writeLockFault : Int → Bool
  writeLockErr : Int → CortexError
  releaseFault : Int → Bool
  releaseErr : Int → CortexError

/-- A lock instance at the `CortexSync` boundary: its key and whether
ownership has been force-claimed.  Only what `lib.rs` observes is kept. -/
structure Lock where
  key : Int
  owned : Bool
deriving DecidableEq

/-- Model of `L::new(cortex_key, settings)` at the trait boundary: fails when the
oracle says so, otherwise yields a fresh owned lock for the key. -/
def Lock.new {T : Type} (env : Env T) (k : Int) : CortexResult Lock :=
  if env.lockNewFault k then Except.error (env.lockNewErr k)
  else Except.ok ⟨k, true⟩

/-- Model of `L::attach(cortex_key)` at the trait boundary. -/
def Lock.attach {T : Type} (env : Env T) (k : Int) : CortexResult Lock :=
  if env.lockAttachFault k then Except.error (env.lockAttachErr k)
  else Except.ok ⟨k, false⟩

/-- Model of `CortexSync::force_ownership` on the lock. -/
def Lock.force_ownership (l : Lock) : Lock := ⟨l.key, true⟩

/-- Model of `CortexSync::read_lock`. -/
def Lock.read_lock {T : Type} (env : Env T) (l : Lock) : CortexResult Unit :=
  if env.readLockFault l.key then Except.error (env.readLockErr l.key)
  else Except.ok ()

/-- Model of `CortexSync::write_lock`. -/
def Lock.write_lock {T : Type} (env : Env T) (l : Lock) : CortexResult Unit :=
  if env.writeLockFault l.key then Except.error (env.writeLockErr l.key)
  else Except.ok ()

/-- Model of `CortexSync::release`. -/
def Lock.release {T : Type} (env : Env T) (l : Lock) : CortexResult Unit :=
  if env.releaseFault l.key then Except.error (env.releaseErr l.key)
  else Except.ok ()

/-- Whether a key currently names a live (unmarked) segment; exactly the
condition under which `shmget(key, ..., IPC_CREAT | IPC_EXCL | 0o666)` fails
with `EEXIST`. -/
def keyInUse {T : Type} (s : Sys T) (k : Int) : Bool :=
  s.segs.any fun r => r.key == k && !r.marked

/-- Whether some segment (marked or not) has the given id. -/
def segExistsId {T : Type} (s : Sys T) (id : Int) : Bool :=
  s.segs.any fun r => r.id == id

/-- Model of `libc::shmget(key, size, IPC_CREAT | IPC_EXCL | 0o666)` (`lib.rs` line
81): returns `(id, errno, state)`.  `EEXIST` when the key is in use; an
oracle-chosen other failure; otherwise a fresh segment with a fresh id. -/
def shmget_create {T : Type} (env : Env T) (s : Sys T) (k : Int) :
    Int × Errno × Sys T :=
  if keyInUse s k then (-1, Errno.eexist, s)
  else if env.createFault k then (-1, Errno.other, s)
  else ((s.nextId : Int), Errno.noerr,
    { s with segs := ⟨k, (s.nextId : Int), none, false⟩ :: s.segs,
             nextId := s.nextId + 1 })

/-- Model of `libc::shmget(key, 0, 0o666)` (`lib.rs` line 151): pure lookup of an
existing segment by key, never creating. -/
def shmget_lookup {T : Type} (env : Env T) (s : Sys T) (k : Int) : Int :=
  match s.segs.find? (fun r => r.key == k && !r.marked) with
  | some r => if env.lookupFault k then -1 else r.id
  | none => -1

/-- Model of `libc::shmat(id, null, 0)` (`lib.rs` lines 121, 162): maps the segment,
returning its address (modelled by the id) or `-1`. -/
def shmat {T : Type} (env : Env T) (s : Sys T) (id : Int) : Int × Sys T :=
  if env.attachFault id || !segExistsId s id then (-1, s)
  else (id, { s with attached := id :: s.attached })

/-- Dereferencing the mapped pointer for a read (`self.ptr.read()`):
a snapshot of the segment's content, `none` when never initialized. -/
def ptrRead {T : Type} (s : Sys T) (p : Int) : Option T :=
  (s.segs.find? fun r => r.id == p).bind fun r => r.content

/-- Writing through the mapped pointer (`self.ptr.write(data)`): overwrites
the entire content of the segment the pointer refers to. -/
def ptrWrite {T : Type} (s : Sys T) (p : Int) (v : T) : Sys T :=
  { s with segs := s.segs.map fun r =>
      if r.id == p then { r with content := some v } else r }

/-- One call to `libc::rand()`. -/
def randCall {T : Type} (env : Env T) (s : Sys T) : Int × Sys T :=
  (env.rands s.randCount, { s with randCount := s.randCount + 1 })

/-- Model of `detach` (`lib.rs` lines 16-24): `libc::shmdt(ptr)`; on failure a dirty
error naming the id. -/
def detach {T : Type} (env : Env T) (s : Sys T) (id p : Int) :
    CortexResult Unit × Sys T :=
  if env.detachFault p then
    (Except.error (CortexError.new_dirty
      ("Failed to detach from shared memory with id: " ++ toString id)), s)
  else (Except.ok (), { s with attached := s.attached.erase p })

/-- Model of `mark_for_deletion` (`lib.rs` lines 27-35): `shmctl(id, IPC_RMID, null)`;
on failure a dirty error, otherwise the segment is marked for removal. -/
def mark_for_deletion {T : Type} (env : Env T) (s : Sys T) (id : Int) :
    CortexResult Unit × Sys T :=
  if env.rmidFault id then
    (Except.error (CortexError.new_dirty
      ("Error cleaning up shared memory with id: " ++ toString id)), s)
  else (Except.ok (), { s with segs := s.segs.map fun r =>
      if r.id == id then { r with marked := true } else r })

/-- The handle `Cortex<T, L>` (`lib.rs` lines 50-59); the raw pointer is
modelled by the id of the mapped segment. -/
structure Cortex (T : Type) where
  key : Int
  id : Int
  size : Nat
  is_owner : Bool
  lock : Lock
  ptr : Int
deriving DecidableEq

/-- Model of `Cortex::attach` (`lib.rs` lines 147-177): attach the lock, look up the
segment by key, map it; `is_owner = false` on success. -/
def Cortex.attach {T : Type} (env : Env T) (s : Sys T) (k : Int) :
    CortexResult (Cortex T) × Sys T :=
  match Lock.attach env k with
  | Except.error e => (Except.error e, s)
  | Except.ok lk =>
    let id := shmget_lookup env s k
    if id = -1 then
      (Except.error (CortexError.new_clean
        ("Error during shmget for key: " ++ toString k)), s)
    else
      let a := shmat env s id
      if a.1 = -1 then
        (Except.error (CortexError.new_clean ("Error during shmat")), a.2)
      else
        (Except.ok ⟨k, id, env.sizeOfT, false, lk, a.1⟩, a.2)

/-- Model of `Cortex::force_ownership` (`lib.rs` lines 199-202). -/
def Cortex.force_ownership {T : Type} (c : Cortex T) : Cortex T :=
  { c with is_owner := true, lock := c.lock.force_ownership }

/-- The tail of `Cortex::new` from line 115 on: the generic `shmget` error
when no id was obtained; otherwise map the segment (on mapping failure,
`mark_for_deletion(id)?` — note the `?` propagates a failed cleanup's error —
then the clean `shmat` error), write the value, create the lock, and return
an owning handle. -/
def Cortex.newTail {T : Type} (env : Env T) (s : Sys T) (k id : Int) (data : T) :
    CortexResult (Cortex T) × Sys T :=
  if id = -1 then
    (Except.error (CortexError.new_clean ("Error during shmget")), s)
  else
    let a := shmat env s id
    if a.1 = -1 then
      match mark_for_deletion env a.2 id with
      | (Except.error e, s2) => (Except.error e, s2)
      | (Except.ok _, s2) =>
        (Except.error (CortexError.new_clean
          ("Error during shmat for id: " ++ toString id)), s2)
    else
      let s2 := ptrWrite a.2 a.1 data
      match Lock.new env k with
      | Except.error e => (Except.error e, s2)
      | Except.ok lk =>
        (Except.ok ⟨k, id, env.sizeOfT, true, lk, a.1⟩, s2)

/-- The retry loop of `Cortex::new` (`lib.rs` lines 100-109): while the
counter is below the fuel and the last attempt failed with `EEXIST`, draw a
new random key and retry `shmget`; break on success.  Returns the final
`(key, id, errno, state)`. -/
def retryLoop {T : Type} (env : Env T) :
    Nat → Sys T → Int → Int → Errno → Int × Int × Errno × Sys T
  | 0, s, k, id, e => (k, id, e, s)
  | fuel + 1, s, k, id, e =>
    if id = -1 ∧ e = Errno.eexist then
      let kc := randCall env s
      let r := shmget_create env kc.2 kc.1
      if r.1 = -1 then retryLoop env fuel r.2.2 kc.1 r.1 r.2.1
      else (kc.1, r.1, e, r.2.2)
    else (k, id, e, s)

/-- Model of `Cortex::new` (`lib.rs` lines 66-145): choose the key (caller-supplied
or random), attempt exclusive creation; on `EEXIST` either take over
(explicit key + forced ownership), fail (explicit key), or retry up to 20
random keys; then run the common tail. -/
def Cortex.new {T : Type} (env : Env T) (s0 : Sys T) (init_key : Option Int)
    (data : T) (force_own : Bool) : CortexResult (Cortex T) × Sys T :=
  match init_key with
  | some k =>
    let r := shmget_create env s0 k
    if r.1 = -1 ∧ r.2.1 = Errno.eexist then
      if force_own then
        match Cortex.attach env r.2.2 k with
        | (Except.ok a, s') => (Except.ok a.force_ownership, s')
        | (Except.error e, s') => (Except.error e, s')
      else Cortex.newTail env r.2.2 k (-1) data
    else Cortex.newTail env r.2.2 k r.1 data
  | none =>
    let kc := randCall env s0
    let r := shmget_create env kc.2 kc.1
    if r.1 = -1 ∧ r.2.1 = Errno.eexist then
      let q := retryLoop env 20 r.2.2 kc.1 r.1 r.2.1
      Cortex.newTail env q.2.2.2 q.1 q.2.1 data
    else Cortex.newTail env r.2.2 kc.1 r.1 data

/-- Model of `Cortex::read` (`lib.rs` lines 179-186): read lock, snapshot the value,
release, return the snapshot. -/
def Cortex.read {T : Type} (env : Env T) (s : Sys T) (c : Cortex T) :
    CortexResult (Option T) × Sys T :=
  match Lock.read_lock env c.lock with
  | Except.error e => (Except.error e, s)
  | Except.ok _ =>
    let data := ptrRead s c.ptr
    match Lock.release env c.lock with
    | Except.error e => (Except.error e, s)
    | Except.ok _ => (Except.ok data, s)

/-- Model of `Cortex::write` (`lib.rs` lines 188-195): write lock, overwrite the
mapped memory, release. -/
def Cortex.write {T : Type} (env : Env T) (s : Sys T) (c : Cortex T) (v : T) :
    CortexResult Unit × Sys T :=
  match Lock.write_lock env c.lock with
  | Except.error e => (Except.error e, s)
  | Except.ok _ =>
    let s2 := ptrWrite s c.ptr v
    match Lock.release env c.lock with
    | Except.error e => (Except.error e, s2)
    | Except.ok _ => (Except.ok (), s2)

/-- Model of `Drop for Cortex` (`lib.rs` lines 206-220): always attempt detach
(logging failure), stop if not owner, otherwise attempt removal (logging
failure).  Returns the final state and the list of logged errors; no error
is ever propagated. -/
def Cortex.drop {T : Type} (env : Env T) (s : Sys T) (c : Cortex T) :
    Sys T × List CortexError :=
  let d := detach env s c.id c.ptr
  let log1 := match d.1 with
    | Except.error e => [e]
    | Except.ok _ => []
  if !c.is_owner then (d.2, log1)
  else
    match mark_for_deletion env d.2 c.id with
    | (Except.error e, s2) => (s2, log1 ++ [e])
    | (Except.ok _, s2) => (s2, log1)

instance {E A : Type} [DecidableEq E] [DecidableEq A] : DecidableEq (Except E A) :=
  fun x y =>
    match x, y with
    | Except.ok a, Except.ok b =>
      if h : a = b then isTrue (by rw [h]) else isFalse (by simp [h])
    | Except.error e, Except.error f =>
      if h : e = f then isTrue (by rw [h]) else isFalse (by simp [h])
    | Except.ok _, Except.error _ => isFalse (by simp)
    | Except.error _, Except.ok _ => isFalse (by simp)

/-- Witness oracle: every external call succeeds, the random stream is
constantly 5, and `size_of::<T>()` is 8. -/
def envAllOk : Env Nat where
  rands := fun _ => 5
  sizeOfT := 8
  createFault := fun _ => false
  attachFault := fun _ => false
  detachFault := fun _ => false
  rmidFault := fun _ => false
  lookupFault := fun _ => false
  lockNewFault := fun _ => false
  lockNewErr := fun _ => CortexError.new_clean ("lock new failed")
  lockAttachFault := fun _ => false
  lockAttachErr := fun _ => CortexError.new_clean ("lock attach failed")
  readLockFault := fun _ => false
  readLockErr := fun _ => CortexError.new_clean ("read lock failed")
  writeLockFault := fun _ => false
  writeLockErr := fun _ => CortexError.new_clean ("write lock failed")
  releaseFault := fun _ => false
  releaseErr := fun _ => CortexError.new_clean ("release failed")

/-- Witness oracle where every `shmat` fails. -/
def envShmatFail : Env Nat := { envAllOk with attachFault := fun _ => true }

/-- Witness oracle where every `shmat` and every `shmctl IPC_RMID` fails. -/
def envShmatRmidFail : Env Nat :=
  { envAllOk with attachFault := fun _ => true, rmidFault := fun _ => true }

/-- Witness oracle where lock creation fails. -/
def envLockNewFail : Env Nat :=
  { envAllOk with lockNewFault := fun _ => true }

/-- Witness oracle where lock attachment fails. -/
def envLockAttachFail : Env Nat :=
  { envAllOk with lockAttachFault := fun _ => true }

/-- Witness oracle where the random stream enumerates 0, 1, 2, ... -/
def envSeq : Env Nat := { envAllOk with rands := fun n => (n : Int) }

/-- Witness state: empty OS. -/
def sysEmpty : Sys Nat := ⟨[], 0, [], 0⟩

/-- Witness state: one live segment with key 7, id 5, content 3. -/
def sysWith7 : Sys Nat := ⟨[⟨7, 5, some 3, false⟩], 6, [], 0⟩

/-- Witness state: one live segment with key 5 (collides with `envAllOk`'s
constant random stream). -/
def sysWith5 : Sys Nat := ⟨[⟨5, 0, some 1, false⟩], 1, [], 0⟩

/-- Witness state: one live segment with key 0 (collides with `envSeq`'s
first random key). -/
def sysWith0 : Sys Nat := ⟨[⟨0, 0, some 1, false⟩], 1, [], 0⟩

/-- Witness handle: non-owning handle for the segment of `sysWith7`. -/
def handle7 : Cortex Nat := ⟨7, 5, 8, false, ⟨7, false⟩, 5⟩

/-- Witness handle: owning handle for the segment of `sysWith7`. -/
def handleOwner7 : Cortex Nat := ⟨7, 5, 8, true, ⟨7, true⟩, 5⟩

/-- Witness state: `sysWith7` with its segment attached locally. -/
def sysAttached7 : Sys Nat := ⟨[⟨7, 5, some 3, false⟩], 6, [5], 0⟩

/-- Witness oracle where `shmdt` and `shmctl IPC_RMID` both fail. -/
def envDetachRmidFail : Env Nat :=
  { envAllOk with detachFault := fun _ => true, rmidFault := fun _ => true }

variable {T : Type}

theorem natCast_ne_negOne (n : Nat) : ¬((n : Int) = -1) := by omega

theorem shmat_segs (env : Env T) (s : Sys T) (id : Int) :
    (shmat env s id).2.segs = s.segs := by
  unfold shmat
  split <;> rfl

theorem attach_segs (env : Env T) (s : Sys T) (k : Int) :
    (Cortex.attach env s k).2.segs = s.segs := by
  unfold Cortex.attach
  cases Lock.attach env k with
  | error e => rfl
  | ok lk =>
    dsimp only
    split
    · rfl
    · split
      · exact shmat_segs env s (shmget_lookup env s k)
      · exact shmat_segs env s (shmget_lookup env s k)

/-- C4: creating with an explicit key that already names a live segment,
without forced ownership, fails with the clean `shmget` error, performs no
retry, and leaves the system state (in particular the existing segment and
the random stream) completely unchanged. -/
theorem cortex_new_explicit_collision (env : Env T) (s : Sys T) (k : Int)
    (v : T) (hk : keyInUse s k = true) :
    Cortex.new env s (some k) v false =
      (Except.error (CortexError.new_clean ("Error during shmget")), s) := by
  simp [Cortex.new, shmget_create, hk, Cortex.newTail]

/-- C4 witness: at a concrete state holding key 7, creation with explicit
key 7 and no forced ownership fails cleanly and returns the state as-is. -/
theorem cortex_new_explicit_collision_witness :
    Cortex.new envAllOk sysWith7 (some 7) (42 : Nat) false =
      (Except.error (CortexError.new_clean ("Error during shmget")), sysWith7) :=
  cortex_new_explicit_collision envAllOk sysWith7 7 42 (by decide)

/-- C1: creating with an explicit key already in use and `force_ownership =
true` is a takeover: the call behaves exactly as `Cortex::attach` on the
existing segment and lock followed by `force_ownership`, and any handle it
returns has `is_owner = true` while the segment table — in particular the
existing content — is untouched (the caller-supplied value is not
written). -/
theorem cortex_new_takeover (env : Env T) (s : Sys T) (k : Int) (v : T)
    (hk : keyInUse s k = true) :
    (Cortex.new env s (some k) v true =
      match Cortex.attach env s k with
      | (Except.ok a, s') => (Except.ok a.force_ownership, s')
      | (Except.error e, s') => (Except.error e, s')) ∧
    (∀ c s', Cortex.new env s (some k) v true = (Except.ok c, s') →
      c.is_owner = true ∧ s'.segs = s.segs) := by
  have heq : Cortex.new env s (some k) v true =
      match Cortex.attach env s k with
      | (Except.ok a, s') => (Except.ok a.force_ownership, s')
      | (Except.error e, s') => (Except.error e, s') := by
    simp [Cortex.new, shmget_create, hk]
  refine ⟨heq, ?_⟩
  intro c s' hc
  rw [heq] at hc
  have hsegs := attach_segs env s k
  rcases hA : Cortex.attach env s k with ⟨ra, sa⟩
  rw [hA] at hc hsegs
  cases ra with
  | error e => simp at hc
  | ok a =>
    simp only at hc
    have h1 : Except.ok a.force_ownership = (Except.ok c : CortexResult (Cortex T)) :=
      congrArg Prod.fst hc
    have h2 : sa = s' := congrArg Prod.snd hc
    have h3 : a.force_ownership = c := by
      cases h1
      rfl
    subst h2
    rw [← h3]
    exact ⟨rfl, hsegs⟩

/-- C1 witness: concrete takeover on a state holding key 7 — the result is
the attached handle with ownership forced, and the segment (content 3) is
preserved rather than overwritten with 42. -/
theorem cortex_new_takeover_witness :
    keyInUse sysWith7 7 = true ∧
    Cortex.new envAllOk sysWith7 (some 7) (42 : Nat) true =
      (Except.ok ⟨7, 5, 8, true, ⟨7, true⟩, 5⟩,
        { sysWith7 with attached := [5] }) := by
  refine ⟨by decide, ?_⟩
  rw [(cortex_new_takeover envAllOk sysWith7 7 42 (by decide)).1]
  decide

theorem shmget_lookup_exists (env : Env T) (s : Sys T) (k : Int)
    (h : shmget_lookup env s k ≠ -1) :
    segExistsId s (shmget_lookup env s k) = true := by
  unfold shmget_lookup at h ⊢
  cases hf : s.segs.find? (fun r => r.key == k && !r.marked) with
  | none => rw [hf] at h; exact absurd rfl h
  | some r =>
    rw [hf] at h
    dsimp only at h ⊢
    have hmem := List.mem_of_find?_eq_some hf
    by_cases hl : env.lookupFault k = true
    · rw [if_pos hl] at h; exact absurd rfl h
    · rw [if_neg hl]
      unfold segExistsId
      exact List.any_eq_true.mpr ⟨r, hmem, by simp⟩

/-- C5: `Cortex::attach` never creates a segment (the segment table is
unchanged in every case); a lock-attach failure is reported first with the
lock's own error; a failed lookup and a failed mapping each produce a clean
error with the state unchanged; and on success the handle records the key,
the looked-up id, `is_owner = false`, and the non-owning attached lock. -/
theorem cortex_attach_spec (env : Env T) (s : Sys T) (k : Int) :
    ((Cortex.attach env s k).2.segs = s.segs) ∧
    (env.lockAttachFault k = true →
      Cortex.attach env s k = (Except.error (env.lockAttachErr k), s)) ∧
    (env.lockAttachFault k = false → shmget_lookup env s k = -1 →
      Cortex.attach env s k =
        (Except.error (CortexError.new_clean
          ("Error during shmget for key: " ++ toString k)), s)) ∧
    (env.lockAttachFault k = false → shmget_lookup env s k ≠ -1 →
      env.attachFault (shmget_lookup env s k) = true →
      Cortex.attach env s k =
        (Except.error (CortexError.new_clean ("Error during shmat")), s)) ∧
    (env.lockAttachFault k = false → shmget_lookup env s k ≠ -1 →
      env.attachFault (shmget_lookup env s k) = false →
      Cortex.attach env s k =
        (Except.ok ⟨k, shmget_lookup env s k, env.sizeOfT, false, ⟨k, false⟩,
           shmget_lookup env s k⟩,
         { s with attached := shmget_lookup env s k :: s.attached })) := by
  refine ⟨attach_segs env s k, ?_, ?_, ?_, ?_⟩
  · intro h
    simp [Cortex.attach, Lock.attach, h]
  · intro h1 h2
    simp [Cortex.attach, Lock.attach, h1, h2]
  · intro h1 h2 h3
    simp [Cortex.attach, Lock.attach, shmat, h1, h2, h3]
  · intro h1 h2 h3
    have hex := shmget_lookup_exists env s k h2
    simp [Cortex.attach, Lock.attach, shmat, h1, h2, h3, hex,
      natCast_ne_negOne]

/-- C5 witness: each branch of the attach protocol at concrete inputs —
lock failure first, clean lookup failure, clean mapping failure, and a
successful attach yielding a non-owning handle. -/
theorem cortex_attach_spec_witness :
    (Cortex.attach envLockAttachFail sysWith7 7 =
      (Except.error (CortexError.new_clean ("lock attach failed")), sysWith7)) ∧
    (Cortex.attach envAllOk sysEmpty 7 =
      (Except.error (CortexError.new_clean ("Error during shmget for key: 7")),
       sysEmpty)) ∧
    (Cortex.attach envShmatFail sysWith7 7 =
      (Except.error (CortexError.new_clean ("Error during shmat")), sysWith7)) ∧
    (Cortex.attach envAllOk sysWith7 7 =
      (Except.ok handle7, { sysWith7 with attached := [5] })) :=
  ⟨(cortex_attach_spec envLockAttachFail sysWith7 7).2.1 rfl,
   (cortex_attach_spec envAllOk sysEmpty 7).2.2.1 rfl rfl,
   (cortex_attach_spec envShmatFail sysWith7 7).2.2.2.1 rfl (by decide) rfl,
   (cortex_attach_spec envAllOk sysWith7 7).2.2.2.2 rfl (by decide) rfl⟩

/-- C6: `read` fails exactly when read-lock acquisition or release fails,
`write` fails exactly when write-lock acquisition or release fails (the
failure always surfaces as an error result); on success `read` returns the
snapshot of the entire mapped value with the state untouched, and `write`
overwrites the entire mapped memory with the new value. -/
theorem cortex_read_write_errors (env : Env T) (s : Sys T) (c : Cortex T)
    (v : T) :
    ((∃ e, (Cortex.read env s c).1 = Except.error e) ↔
      (env.readLockFault c.lock.key = true ∨
       env.releaseFault c.lock.key = true)) ∧
    ((∃ e, (Cortex.write env s c v).1 = Except.error e) ↔
      (env.writeLockFault c.lock.key = true ∨
       env.releaseFault c.lock.key = true)) ∧
    (env.readLockFault c.lock.key = false →
      env.releaseFault c.lock.key = false →
      Cortex.read env s c = (Except.ok (ptrRead s c.ptr), s)) ∧
    (env.writeLockFault c.lock.key = false →
      env.releaseFault c.lock.key = false →
      Cortex.write env s c v = (Except.ok (), ptrWrite s c.ptr v)) := by
  cases hr : env.readLockFault c.lock.key <;>
    cases hw : env.writeLockFault c.lock.key <;>
      cases hrel : env.releaseFault c.lock.key <;>
        simp [Cortex.read, Cortex.write, Lock.read_lock, Lock.write_lock,
          Lock.release, hr, hw, hrel]

/-- C6 witness: with a fault-free lock, reading the concrete segment
returns its whole value and writing replaces the whole value. -/
theorem cortex_read_write_errors_witness :
    (Cortex.read envAllOk sysWith7 handle7 =
      (Except.ok (some 3), sysWith7)) ∧
    (Cortex.write envAllOk sysWith7 handle7 9 =
      (Except.ok (), ⟨[⟨7, 5, some 9, false⟩], 6, [], 0⟩)) :=
  ⟨(cortex_read_write_errors envAllOk sysWith7 handle7 9).2.2.1 rfl rfl,
   (cortex_read_write_errors envAllOk sysWith7 handle7 9).2.2.2 rfl rfl⟩

/-- C10: `read` leaves the whole system state — in particular the mapped
memory — unchanged; `write` changes nothing but segment contents (the
attachment list, id counter and random counter are untouched, and in the
embedding the handle itself is never modified, matching the `&self`
receivers); consequently a second read right after a successful read
returns the same value. -/
theorem cortex_read_write_frame (env : Env T) (s : Sys T) (c : Cortex T)
    (v : T) :
    ((Cortex.read env s c).2 = s) ∧
    ((Cortex.write env s c v).2.attached = s.attached ∧
     (Cortex.write env s c v).2.nextId = s.nextId ∧
     (Cortex.write env s c v).2.randCount = s.randCount) ∧
    (∀ w, (Cortex.read env s c).1 = Except.ok w →
      (Cortex.read env (Cortex.read env s c).2 c).1 = Except.ok w) := by
  have hr2 : (Cortex.read env s c).2 = s := by
    unfold Cortex.read
    cases Lock.read_lock env c.lock with
    | error e => rfl
    | ok u =>
      dsimp only
      cases Lock.release env c.lock with
      | error e => rfl
      | ok u => rfl
  refine ⟨hr2, ?_, ?_⟩
  · unfold Cortex.write
    cases Lock.write_lock env c.lock with
    | error e => exact ⟨rfl, rfl, rfl⟩
    | ok u =>
      dsimp only
      cases Lock.release env c.lock with
      | error e => exact ⟨rfl, rfl, rfl⟩
      | ok u => exact ⟨rfl, rfl, rfl⟩
  · intro w h
    rwa [hr2]

/-- C10 witness: two consecutive reads of the concrete segment both return
its value. -/
theorem cortex_read_write_frame_witness :
    (Cortex.read envAllOk (Cortex.read envAllOk sysWith7 handle7).2
      handle7).1 = Except.ok (some 3) :=
  (cortex_read_write_frame envAllOk sysWith7 handle7 9).2.2 (some 3) (by decide)

theorem new_fresh_explicit (env : Env T) (s : Sys T) (k : Int) (v : T)
    (fo : Bool) (h1 : keyInUse s k = false) (h2 : env.createFault k = false) :
    Cortex.new env s (some k) v fo =
      Cortex.newTail env
        { s with segs := ⟨k, (s.nextId : Int), none, false⟩ :: s.segs,
                 nextId := s.nextId + 1 } k (s.nextId : Int) v := by
  simp [Cortex.new, shmget_create, h1, h2, natCast_ne_negOne]

/-- C7: creating a fresh segment (explicit unused key, no external faults)
storing `v` succeeds with an owning handle, and an immediate `read` through
that handle returns exactly `v`. -/
theorem cortex_roundtrip (env : Env T) (s : Sys T) (k : Int) (v : T)
    (fo : Bool) (h1 : keyInUse s k = false) (h2 : env.createFault k = false)
    (h3 : env.attachFault ((s.nextId : Int)) = false)
    (h4 : env.lockNewFault k = false)
    (h5 : env.readLockFault k = false)
    (h6 : env.releaseFault k = false) :
    Cortex.new env s (some k) v fo =
      (Except.ok ⟨k, (s.nextId : Int), env.sizeOfT, true, ⟨k, true⟩,
         (s.nextId : Int)⟩,
       { s with
           segs := (⟨k, (s.nextId : Int), some v, false⟩ : SegRec T) ::
             s.segs.map (fun r =>
               if r.id == (s.nextId : Int) then { r with content := some v }
               else r),
           nextId := s.nextId + 1,
           attached := (s.nextId : Int) :: s.attached }) ∧
    (Cortex.read env
        { s with
            segs := (⟨k, (s.nextId : Int), some v, false⟩ : SegRec T) ::
              s.segs.map (fun r =>
                if r.id == (s.nextId : Int) then { r with content := some v }
                else r),
            nextId := s.nextId + 1,
            attached := (s.nextId : Int) :: s.attached }
        ⟨k, (s.nextId : Int), env.sizeOfT, true, ⟨k, true⟩,
         (s.nextId : Int)⟩).1 = Except.ok (some v) := by
  constructor
  · rw [new_fresh_explicit env s k v fo h1 h2]
    simp [Cortex.newTail, shmat, segExistsId, h3, natCast_ne_negOne,
      ptrWrite, Lock.new, h4]
  · simp [Cortex.read, Lock.read_lock, Lock.release, h5, h6, ptrRead,
      List.find?]

/-- C7 witness: storing 42 under key 1 in the empty system and immediately
reading it back yields 42. -/
theorem cortex_roundtrip_witness :
    (Cortex.new envAllOk sysEmpty (some 1) (42 : Nat) false).1 =
      Except.ok ⟨1, 0, 8, true, ⟨1, true⟩, 0⟩ ∧
    (Cortex.read envAllOk
        (Cortex.new envAllOk sysEmpty (some 1) (42 : Nat) false).2
        ⟨1, 0, 8, true, ⟨1, true⟩, 0⟩).1 = Except.ok (some 42) := by
  have h := cortex_roundtrip envAllOk sysEmpty 1 42 false rfl rfl rfl rfl
    rfl rfl
  exact ⟨by rw [h.1]; rfl, by rw [h.1]; exact h.2⟩

/-- C9: when lock creation fails after the segment was created, attached and
initialized, `Cortex::new` returns the lock's error unchanged and performs
no cleanup — the new segment is still attached and still present, filled
with the value and not marked for removal (an orphaned OS segment). -/
theorem cortex_new_lock_fail_orphan (env : Env T) (s : Sys T) (k : Int)
    (v : T) (fo : Bool) (h1 : keyInUse s k = false)
    (h2 : env.createFault k = false)
    (h3 : env.attachFault ((s.nextId : Int)) = false)
    (h4 : env.lockNewFault k = true) :
    (Cortex.new env s (some k) v fo).1 = Except.error (env.lockNewErr k) ∧
    (Cortex.new env s (some k) v fo).2.attached =
      (s.nextId : Int) :: s.attached ∧
    (Cortex.new env s (some k) v fo).2.segs.find?
        (fun r => r.id == (s.nextId : Int)) =
      some ⟨k, (s.nextId : Int), some v, false⟩ := by
  rw [new_fresh_explicit env s k v fo h1 h2]
  refine ⟨?_, ?_, ?_⟩ <;>
    simp [Cortex.newTail, shmat, segExistsId, h3, natCast_ne_negOne,
      ptrWrite, Lock.new, h4, List.find?]

/-- C9 witness: concrete lock-creation failure leaves the id-0 segment
attached, initialized and unmarked while the lock error is returned. -/
theorem cortex_new_lock_fail_orphan_witness :
    (Cortex.new envLockNewFail sysEmpty (some 1) (7 : Nat) false).1 =
      Except.error (CortexError.new_clean ("lock new failed")) ∧
    (Cortex.new envLockNewFail sysEmpty (some 1) (7 : Nat) false).2.attached =
      [0] ∧
    (Cortex.new envLockNewFail sysEmpty (some 1) (7 : Nat)
        false).2.segs.find? (fun r => r.id == 0) =
      some ⟨1, 0, some 7, false⟩ :=
  cortex_new_lock_fail_orphan envLockNewFail sysEmpty 1 7 false rfl rfl rfl
    rfl

/-- C3 counterexample: with creation succeeding and `shmat` failing, the
error reported to the caller is *clean*, not dirty (first conjunct); and if
the cleanup `shmctl IPC_RMID` also fails, the cleanup's dirty error
*replaces* the original attachment error instead of being merely logged
(second conjunct). -/
theorem cortex_new_shmat_cleanup_cex :
    ((Cortex.new envShmatFail sysEmpty (some 1) (0 : Nat) false).1 =
        Except.error (CortexError.new_clean ("Error during shmat for id: 0")) ∧
      (CortexError.new_clean ("Error during shmat for id: 0")).kind ≠
        ErrKind.dirty) ∧
    (Cortex.new envShmatRmidFail sysEmpty (some 1) (0 : Nat) false).1 =
      Except.error
        (CortexError.new_dirty ("Error cleaning up shared memory with id: 0")) := by
  decide

/-- C3 amended: if attachment fails after creation, the just-created
segment is marked for removal before returning; when that cleanup succeeds
the original attachment error is propagated as a *clean* error, and when
the cleanup fails the cleanup's *dirty* error is returned to the caller in
place of the original attachment error (the segment staying unmarked). -/
theorem cortex_new_shmat_cleanup_amended (env : Env T) (s : Sys T) (k : Int)
    (v : T) (fo : Bool) (h1 : keyInUse s k = false)
    (h2 : env.createFault k = false)
    (h3 : env.attachFault ((s.nextId : Int)) = true) :
    (env.rmidFault ((s.nextId : Int)) = false →
      Cortex.new env s (some k) v fo =
        (Except.error (CortexError.new_clean
           ("Error during shmat for id: " ++ toString ((s.nextId : Int)))),
         { s with
             segs := (⟨k, (s.nextId : Int), none, true⟩ : SegRec T) ::
               s.segs.map (fun r =>
                 if r.id == (s.nextId : Int) then { r with marked := true }
                 else r),
             nextId := s.nextId + 1 })) ∧
    (env.rmidFault ((s.nextId : Int)) = true →
      Cortex.new env s (some k) v fo =
        (Except.error (CortexError.new_dirty
           ("Error cleaning up shared memory with id: " ++
             toString ((s.nextId : Int)))),
         { s with
             segs := (⟨k, (s.nextId : Int), none, false⟩ : SegRec T) ::
               s.segs,
             nextId := s.nextId + 1 })) := by
  rw [new_fresh_explicit env s k v fo h1 h2]
  constructor
  · intro h4
    simp [Cortex.newTail, shmat, h3, mark_for_deletion, h4,
      natCast_ne_negOne]
  · intro h4
    simp [Cortex.newTail, shmat, h3, mark_for_deletion, h4,
      natCast_ne_negOne]

/-- C3 amended witness: both cleanup outcomes at concrete inputs — cleanup
succeeding (clean `shmat` error, segment marked) and cleanup failing (dirty
cleanup error, segment unmarked). -/
theorem cortex_new_shmat_cleanup_amended_witness :
    Cortex.new envShmatFail sysEmpty (some 1) (0 : Nat) false =
      (Except.error (CortexError.new_clean ("Error during shmat for id: 0")),
       ⟨[⟨1, 0, none, true⟩], 1, [], 0⟩) ∧
    Cortex.new envShmatRmidFail sysEmpty (some 1) (0 : Nat) false =
      (Except.error
         (CortexError.new_dirty ("Error cleaning up shared memory with id: 0")),
       ⟨[⟨1, 0, none, false⟩], 1, [], 0⟩) :=
  ⟨(cortex_new_shmat_cleanup_amended envShmatFail sysEmpty 1 0 false rfl rfl
      rfl).1 rfl,
   (cortex_new_shmat_cleanup_amended envShmatRmidFail sysEmpty 1 0 false rfl
      rfl rfl).2 rfl⟩

/-- C8: on drop, detach is always attempted (its effect lands whenever
`shmdt` works, and its failure is logged); removal is requested exactly for
owners — a non-owner's drop leaves the segment table untouched, an owner's
drop marks the segment for removal even when detach failed, and a failed
removal is logged; no teardown failure is ever propagated (the embedding of
`Drop` returns only a final state and a log). -/
theorem cortex_drop_spec (env : Env T) (s : Sys T) (c : Cortex T) :
    (env.detachFault c.ptr = false →
      (Cortex.drop env s c).1.attached = s.attached.erase c.ptr) ∧
    (env.detachFault c.ptr = true →
      CortexError.new_dirty
          ("Failed to detach from shared memory with id: " ++ toString c.id) ∈
        (Cortex.drop env s c).2) ∧
    (c.is_owner = false → (Cortex.drop env s c).1.segs = s.segs) ∧
    (c.is_owner = true → env.rmidFault c.id = false →
      (Cortex.drop env s c).1.segs = s.segs.map (fun r =>
        if r.id == c.id then { r with marked := true } else r)) ∧
    (c.is_owner = true → env.rmidFault c.id = true →
      CortexError.new_dirty
          ("Error cleaning up shared memory with id: " ++ toString c.id) ∈
        (Cortex.drop env s c).2) := by
  cases hd : env.detachFault c.ptr <;> cases ho : c.is_owner <;>
    cases hm : env.rmidFault c.id <;>
      simp [Cortex.drop, detach, mark_for_deletion, hd, ho, hm]

/-- C8 witness: concrete drops — an owner's drop detaches and marks the
segment; a non-owner's drop leaves the segment table unchanged; with both
teardown calls failing, both failures are merely logged. -/
theorem cortex_drop_spec_witness :
    (Cortex.drop envAllOk sysAttached7 handleOwner7).1.attached = [] ∧
    (Cortex.drop envAllOk sysAttached7 handleOwner7).1.segs =
      [⟨7, 5, some 3, true⟩] ∧
    (Cortex.drop envAllOk sysAttached7 handle7).1.segs =
      [⟨7, 5, some 3, false⟩] ∧
    CortexError.new_dirty ("Failed to detach from shared memory with id: 5") ∈
      (Cortex.drop envDetachRmidFail sysAttached7 handleOwner7).2 ∧
    CortexError.new_dirty ("Error cleaning up shared memory with id: 5") ∈
      (Cortex.drop envDetachRmidFail sysAttached7 handleOwner7).2 :=
  ⟨(cortex_drop_spec envAllOk sysAttached7 handleOwner7).1 rfl,
   (cortex_drop_spec envAllOk sysAttached7 handleOwner7).2.2.2.1 rfl rfl,
   (cortex_drop_spec envAllOk sysAttached7 handle7).2.2.1 rfl,
   (cortex_drop_spec envDetachRmidFail sysAttached7 handleOwner7).2.1 rfl,
   (cortex_drop_spec envDetachRmidFail sysAttached7 handleOwner7).2.2.2.2 rfl
     rfl⟩

theorem keyInUse_randCount (s : Sys T) (n : Nat) (k : Int) :
    keyInUse { s with randCount := n } k = keyInUse s k := rfl

theorem shmget_create_inuse (env : Env T) (s : Sys T) (k : Int)
    (h : keyInUse s k = true) :
    shmget_create env s k = (-1, Errno.eexist, s) := by
  simp [shmget_create, h]

theorem shmget_create_fresh (env : Env T) (s : Sys T) (k : Int)
    (h1 : keyInUse s k = false) (h2 : env.createFault k = false) :
    shmget_create env s k =
      ((s.nextId : Int), Errno.noerr,
       { s with segs := ⟨k, (s.nextId : Int), none, false⟩ :: s.segs,
                nextId := s.nextId + 1 }) := by
  simp [shmget_create, h1, h2]

theorem retry_all_collide (env : Env T) :
    ∀ (fuel : Nat) (s : Sys T) (k : Int),
      (∀ i, i < fuel → keyInUse s (env.rands (s.randCount + i)) = true) →
      ∃ k', retryLoop env fuel s k (-1) Errno.eexist =
        (k', -1, Errno.eexist, { s with randCount := s.randCount + fuel }) := by
  intro fuel
  induction fuel with
  | zero => intro s k _; exact ⟨k, rfl⟩
  | succ n ih =>
    intro s k h
    have h0 : keyInUse s (env.rands s.randCount) = true := by
      simpa using h 0 (by omega)
    obtain ⟨k', hk'⟩ := ih { s with randCount := s.randCount + 1 }
      (env.rands s.randCount)
      (fun i hi => by
        have h2 := h (i + 1) (by omega)
        have e : s.randCount + 1 + i = s.randCount + (i + 1) := by omega
        simpa [keyInUse_randCount, e] using h2)
    refine ⟨k', ?_⟩
    have hs := shmget_create_inuse env { s with randCount := s.randCount + 1 }
      (env.rands s.randCount) (by simpa [keyInUse_randCount] using h0)
    have e : s.randCount + 1 + n = s.randCount + (n + 1) := by omega
    simp only [retryLoop, randCall]
    simp [hs, hk', e]

theorem retry_succeeds (env : Env T) :
    ∀ (p : Nat) (fuel : Nat) (s : Sys T) (k : Int), p < fuel →
      (∀ i, i < p → keyInUse s (env.rands (s.randCount + i)) = true) →
      keyInUse s (env.rands (s.randCount + p)) = false →
      env.createFault (env.rands (s.randCount + p)) = false →
      retryLoop env fuel s k (-1) Errno.eexist =
        (env.rands (s.randCount + p), (s.nextId : Int), Errno.eexist,
         { s with
             segs := ⟨env.rands (s.randCount + p), (s.nextId : Int), none,
               false⟩ :: s.segs,
             nextId := s.nextId + 1,
             randCount := s.randCount + p + 1 }) := by
  intro p
  induction p with
  | zero =>
    intro fuel s k hf h hku hcf
    cases fuel with
    | zero => omega
    | succ m =>
      have hs := shmget_create_fresh env
        { s with randCount := s.randCount + 1 } (env.rands s.randCount)
        (by simpa [keyInUse_randCount] using hku) (by simpa using hcf)
      simp only [retryLoop, randCall]
      simp [hs, natCast_ne_negOne]
  | succ n ih =>
    intro fuel s k hf h hku hcf
    cases fuel with
    | zero => omega
    | succ m =>
      have h0 : keyInUse s (env.rands s.randCount) = true := by
        simpa using h 0 (by omega)
      have hs := shmget_create_inuse env
        { s with randCount := s.randCount + 1 } (env.rands s.randCount)
        (by simpa [keyInUse_randCount] using h0)
      have e : s.randCount + 1 + n = s.randCount + (n + 1) := by omega
      have e3 : s.randCount + 1 + n + 1 = s.randCount + (n + 1) + 1 := by
        omega
      have hrec := ih m { s with randCount := s.randCount + 1 }
        (env.rands s.randCount) (by omega)
        (fun i hi => by
          have h2 := h (i + 1) (by omega)
          have e2 : s.randCount + 1 + i = s.randCount + (i + 1) := by omega
          simpa [keyInUse_randCount, e2] using h2)
        (by simpa [keyInUse_randCount, e] using hku)
        (by simpa [e] using hcf)
      simp only [retryLoop, randCall]
      simp [hs, hrec, e, e3]

/-- C2: with no explicit key and the initial random candidate colliding,
`Cortex::new` retries with fresh pseudo-random keys, up to 20 retries.
First half: if the initial candidate and all 20 retry candidates collide,
the call fails with the clean `shmget` error after consuming exactly 21
random keys, creating nothing.  Second half: if the first `j` candidates
(`1 ≤ j ≤ 20`) collide and candidate `j` is fresh, creation stops there and
succeeds with a handle keyed to that candidate. -/
theorem cortex_new_random_retry (env : Env T) (s : Sys T) (v : T)
    (fo : Bool) :
    ((∀ i, i < 21 → keyInUse s (env.rands (s.randCount + i)) = true) →
      Cortex.new env s none v fo =
        (Except.error (CortexError.new_clean ("Error during shmget")),
         { s with randCount := s.randCount + 21 })) ∧
    (∀ j, 1 ≤ j → j ≤ 20 →
      (∀ i, i < j → keyInUse s (env.rands (s.randCount + i)) = true) →
      keyInUse s (env.rands (s.randCount + j)) = false →
      env.createFault (env.rands (s.randCount + j)) = false →
      env.attachFault ((s.nextId : Int)) = false →
      env.lockNewFault (env.rands (s.randCount + j)) = false →
      (Cortex.new env s none v fo).1 =
        Except.ok ⟨env.rands (s.randCount + j), (s.nextId : Int),
          env.sizeOfT, true, ⟨env.rands (s.randCount + j), true⟩,
          (s.nextId : Int)⟩) := by
  constructor
  · intro h
    have h0 : keyInUse s (env.rands s.randCount) = true := by
      simpa using h 0 (by omega)
    have hs := shmget_create_inuse env
      { s with randCount := s.randCount + 1 } (env.rands s.randCount)
      (by simpa [keyInUse_randCount] using h0)
    obtain ⟨k', hk'⟩ := retry_all_collide env 20
      { s with randCount := s.randCount + 1 } (env.rands s.randCount)
      (fun i hi => by
        have h2 := h (i + 1) (by omega)
        have e : s.randCount + 1 + i = s.randCount + (i + 1) := by omega
        simpa [keyInUse_randCount, e] using h2)
    have e : s.randCount + 1 + 20 = s.randCount + 21 := by omega
    simp only [Cortex.new, randCall]
    simp [hs, hk', e, Cortex.newTail]
  · intro j h1 h2 h hku hcf haf hlf
    obtain ⟨p, rfl⟩ : ∃ p, j = p + 1 := ⟨j - 1, by omega⟩
    have h0 : keyInUse s (env.rands s.randCount) = true := by
      simpa using h 0 (by omega)
    have hs := shmget_create_inuse env
      { s with randCount := s.randCount + 1 } (env.rands s.randCount)
      (by simpa [keyInUse_randCount] using h0)
    have e : s.randCount + 1 + p = s.randCount + (p + 1) := by omega
    have hrec := retry_succeeds env p 20
      { s with randCount := s.randCount + 1 } (env.rands s.randCount)
      (by omega)
      (fun i hi => by
        have h3 := h (i + 1) (by omega)
        have e2 : s.randCount + 1 + i = s.randCount + (i + 1) := by omega
        simpa [keyInUse_randCount, e2] using h3)
      (by simpa [keyInUse_randCount, e] using hku)
      (by simpa [e] using hcf)
    simp only [Cortex.new, randCall]
    simp [hs, hrec, e, Cortex.newTail, shmat, segExistsId,
      natCast_ne_negOne, haf, ptrWrite, Lock.new, hlf]

/-- C2 witness: with a constant random stream colliding with the existing
key 5, keyless creation fails cleanly after exactly 21 random draws; with
the stream 0, 1, 2, ... and only key 0 taken, it stops at the first fresh
candidate (the first retry) and succeeds keyed to it. -/
theorem cortex_new_random_retry_witness :
    Cortex.new envAllOk sysWith5 none (0 : Nat) false =
      (Except.error (CortexError.new_clean ("Error during shmget")),
       ⟨[⟨5, 0, some 1, false⟩], 1, [], 21⟩) ∧
    (Cortex.new envSeq sysWith0 none (0 : Nat) false).1 =
      Except.ok ⟨1, 1, 8, true, ⟨1, true⟩, 1⟩ :=
  ⟨(cortex_new_random_retry envAllOk sysWith5 0 false).1 (by decide),
   (cortex_new_random_retry envSeq sysWith0 0 false).2 1 (by decide)
     (by decide) (by decide) (by decide) (by decide) (by decide) (by decide)⟩

end HiveMind
